import Mathlib

set_option maxHeartbeats 1000000

/-!
Verification of the real-time-agents session/action relay and streaming chat
service. The definitions below are a shallow embedding of the two Python
modules of the repository: the agent service (chat endpoints, the SSE chat
stream generator) and the web service (session store, action lifecycle,
event ingestion and the webhook endpoints). External collaborators such as
the language model, the stream iterator and the tracing sink are modelled as
explicit parameters describing the outcome of the corresponding call:
success with a value, or an exception carrying a message.
-/

namespace RTA

/-! Association-list helpers modelling the Python dict operations used by the
in-memory stores: assignment to an existing key replaces its value in place,
assignment to a fresh key appends, and del removes the key. -/

def lookupKey {α : Type} : List (String × α) → String → Option α
  | [], _ => none
  | (k, v) :: rest, key => if k = key then some v else lookupKey rest key

def setKey {α : Type} : List (String × α) → String → α → List (String × α)
  | [], key, v => [(key, v)]
  | (k, w) :: rest, key, v =>
    if k = key then (key, v) :: rest else (k, w) :: setKey rest key v

def eraseKey {α : Type} : List (String × α) → String → List (String × α)
  | [], _ => []
  | (k, w) :: rest, key =>
    if k = key then eraseKey rest key else (k, w) :: eraseKey rest key

namespace Agent

/-! Embedding of the agent service (the chat endpoints and the streaming
generator of the chat-stream endpoint). -/

/-- A stored conversation message, as kept in the conversations dict:
either a HumanMessage or an AIMessage, each holding its text content. -/
inductive Msg where
  | human : String → Msg
  | ai : String → Msg
deriving DecidableEq

/-- A client-facing server-sent event frame emitted by the streaming
generator: a text chunk, an action event carrying the action kind and the
button text, a done frame carrying the session id, or an error frame
carrying the exception message. -/
inductive StreamEvent where
  | chunk : String → StreamEvent
  | action : String → String → StreamEvent
  | done : String → StreamEvent
  | error : String → StreamEvent
deriving DecidableEq

/-- A tool invocation of the model response: its tool name and its argument
dictionary (only string-valued arguments are ever read by the code). -/
structure ToolCall where
  name : String
  args : List (String × String)
deriving DecidableEq

/-- The model response of the first upstream call, as far as the generator
inspects it: its list of tool invocations. -/
structure ModelResponse where
  tool_calls : List ToolCall
deriving DecidableEq

/-- A content block of a streamed chunk: a dict block whose text field may
be present or absent, or any other value rendered by str. -/
inductive Block where
  | dict : Option String → Block
  | other : String → Block
deriving DecidableEq

/-- The content attribute of one streamed chunk: either a plain string or a
list of content blocks. -/
inductive ChunkContent where
  | str : String → ChunkContent
  | blocks : List Block → ChunkContent
deriving DecidableEq

/-- The text a dict block yields via get with default empty, or the str
rendering of a non-dict block. -/
def blockText : Block → String
  | .dict t => t.getD ""
  | .other s => s

/-- The text the streaming loop extracts from one chunk, or none when the
loop skips the chunk: an empty or falsy content is skipped, a plain string
is forwarded, and of a block list only the text of the first block is
forwarded when it is nonempty. -/
def chunkText : ChunkContent → Option String
  | .str s => if s = "" then none else some s
  | .blocks [] => none
  | .blocks (b :: _) =>
    let t := blockText b
    if t = "" then none else some t

/-- Argument lookup on a tool-call argument dict with default empty string,
modelling args.get with an empty default. -/
def argGet (args : List (String × String)) (key : String) : String :=
  (lookupKey args key).getD ""

/-- The button texts collected by the tool-call loop: one entry per
invocation whose tool name is click_button, in order; invocations with any
other name are skipped entirely. -/
def recognizedButtons (tcs : List ToolCall) : List String :=
  (tcs.filter (fun tc => decide (tc.name = "click_button"))).map
    (fun tc => argGet tc.args "button_text")

/-- The synthesized confirmation text for a clicked button. -/
def confirmation (b : String) : String :=
  "Done! I\x27ve clicked the \"" ++ b ++ "\" button for you."

/-- The confirmation chunk frames emitted after the tool-call loop: one
frame summarizing the first collected button text, or none when no
invocation was recognized. -/
def confirmationEvents (made : List String) : List StreamEvent :=
  match made with
  | [] => []
  | b :: _ => [StreamEvent.chunk (confirmation b)]

/-- The assistant reply recorded for history purposes after the tool-call
branch: the confirmation of the first collected button text, or the empty
string when no invocation was recognized. -/
def confirmationText (made : List String) : String :=
  match made with
  | [] => ""
  | b :: _ => confirmation b

/-- The last n elements of a list, modelling a Python slice from minus n. -/
def lastN {α : Type} (n : Nat) (l : List α) : List α := l.drop (l.length - n)

/-- The terminal frame emitted after the history update: when tracing is
enabled and the tracing calls raise, the error frame of that exception;
otherwise the done frame carrying the session id. -/
def finalEvent (session_id : String) (lfEnabled : Bool) (lfErr : Option String) :
    StreamEvent :=
  if lfEnabled then
    match lfErr with
    | some e => StreamEvent.error e
    | none => StreamEvent.done session_id
  else StreamEvent.done session_id

/-- The streaming generator of the chat-stream endpoint. Parameters model
the outcomes of the external calls: modelResult is the first upstream call
(exception message or response), streamChunks and streamErr describe the
streaming call used in the no-tool-call branch (the chunks delivered before
the iterator either finishes or raises), and lfEnabled with lfErr describe
the tracing sink (enabled, and whether its calls raise). The result is the
emitted frame sequence together with the stored conversation history of the
session after the turn. -/
def generate (message session_id : String) (history : List Msg)
    (modelResult : Except String ModelResponse)
    (streamChunks : List ChunkContent) (streamErr : Option String)
    (lfEnabled : Bool) (lfErr : Option String) : List StreamEvent × List Msg :=
  match modelResult with
  | .error e => ([StreamEvent.error e], history)
  | .ok resp =>
    match resp.tool_calls with
    | [] =>
      let texts := streamChunks.filterMap chunkText
      let emitted := texts.map StreamEvent.chunk
      match streamErr with
      | some e => (emitted ++ [StreamEvent.error e], history)
      | none =>
        let full := String.join texts
        let newHistory := lastN 20 (history ++ [Msg.human message, Msg.ai full])
        (emitted ++ [finalEvent session_id lfEnabled lfErr], newHistory)
    | tc :: rest =>
      let made := recognizedButtons (tc :: rest)
      let events := made.map (StreamEvent.action "click_button") ++ confirmationEvents made
      let newHistory :=
        lastN 20 (history ++ [Msg.human message, Msg.ai (confirmationText made)])
      (events ++ [finalEvent session_id lfEnabled lfErr], newHistory)

/-- The conversations store of the agent service: session id to stored
message history. -/
abbrev Conversations := List (String × List Msg)

/-- The chat-stream endpoint at the level of the conversations store: the
session id defaults to the string default when absent from the request
body, the history entry is created empty when missing (setdefault), and the
generator runs on that history. -/
def chat_stream (convs : Conversations) (session_id? : Option String)
    (message : String) (modelResult : Except String ModelResponse)
    (streamChunks : List ChunkContent) (streamErr : Option String)
    (lfEnabled : Bool) (lfErr : Option String) : List StreamEvent × Conversations :=
  let sid := session_id?.getD "default"
  let history := (lookupKey convs sid).getD []
  let convs0 :=
    match lookupKey convs sid with
    | some _ => convs
    | none => setKey convs sid []
  let r := generate message sid history modelResult streamChunks streamErr lfEnabled lfErr
  (r.1, setKey convs0 sid r.2)

/-- The non-streaming chat endpoint at the level of the conversations
store: the session id defaults to the string default, the model call either
raises (a 500 error response, history untouched beyond the setdefault) or
returns the reply text, which is appended to the capped history; a tracing
flush failure after the append still yields a 500 error response. -/
def chat (convs : Conversations) (session_id? : Option String) (message : String)
    (modelResult : Except String String) (lfEnabled : Bool) (lfErr : Option String) :
    Conversations × Nat :=
  let sid := session_id?.getD "default"
  let history := (lookupKey convs sid).getD []
  let convs0 :=
    match lookupKey convs sid with
    | some _ => convs
    | none => setKey convs sid []
  match modelResult with
  | .error _ => (convs0, 500)
  | .ok text =>
    let newHistory := lastN 20 (history ++ [Msg.human message, Msg.ai text])
    let convs1 := setKey convs0 sid newHistory
    if lfEnabled then
      match lfErr with
      | some _ => (convs1, 500)
      | none => (convs1, 200)
    else (convs1, 200)

/-- The chat-reset endpoint: pops the conversation entry of the session id,
defaulting to the string default, and always reports success. -/
def reset_chat (convs : Conversations) (session_id? : Option String) :
    Conversations × Nat :=
  (eraseKey convs (session_id?.getD "default"), 200)

/-- Frame classifying predicate: is the frame an action event. -/
def isAction : StreamEvent → Bool
  | .action _ _ => true
  | _ => false

/-- Frame classifying predicate: is the frame a text chunk. -/
def isChunk : StreamEvent → Bool
  | .chunk _ => true
  | _ => false

/-- Frame classifying predicate: is the frame terminal, that is a done or
an error frame. -/
def isTerminal : StreamEvent → Bool
  | .done _ => true
  | .error _ => true
  | _ => false

/-- The number of action-event frames of a frame sequence. -/
def countActions (l : List StreamEvent) : Nat := l.countP isAction

/-- The number of text-chunk frames of a frame sequence. -/
def countChunks (l : List StreamEvent) : Nat := l.countP isChunk

end Agent

namespace Web

/-! Embedding of the web service: the session store, event ingestion, and
the action lifecycle webhook endpoints. Timestamps are passed in explicitly
as natural numbers; fresh ids are passed in explicitly as strings. -/

/-- An action record as stored in the per-session actions dict. -/
structure Action where
  action_id : String
  type : Option String
  payload : List (String × String)
  status : String
  created_at : Nat
  executed_at : Option Nat
deriving DecidableEq

/-- A session record of the session store. -/
structure Session where
  session_id : String
  started_at : Nat
  last_activity : Nat
  events_count : Nat
  pages_viewed : List String
  actions : List (String × Action)
  last_agent_action : Option Nat
deriving DecidableEq

/-- The in-memory session store: session id to session record. -/
abbrev Sessions := List (String × Session)

/-- The result of the action-ack endpoint: an invalid-session error, an
unknown-action error, or success. -/
inductive AckResult where
  | invalidSession
  | unknownAction
  | ok
deriving DecidableEq

/-- The HTTP status code of an action-ack result: 400 for an invalid
session, 404 for an unknown action, 200 on success. -/
def AckResult.httpStatus : AckResult → Nat
  | .invalidSession => 400
  | .unknownAction => 404
  | .ok => 200

/-- The result of the agent-action webhook: an invalid-session error, or
receipt with the fresh action id. -/
inductive CreateResult where
  | invalidSession
  | received : String → CreateResult
deriving DecidableEq

/-- The HTTP status code of an agent-action webhook result: 400 for an
invalid session, 200 on receipt. -/
def CreateResult.httpStatus : CreateResult → Nat
  | .invalidSession => 400
  | .received _ => 200

/-- The session-start endpoint: stores a fresh session record with zeroed
counters under the fresh id and returns it. -/
def start_session (ss : Sessions) (newId : String) (now : Nat) :
    Sessions × Nat × String :=
  (setKey ss newId
    { session_id := newId, started_at := now, last_activity := now,
      events_count := 0, pages_viewed := [], actions := [],
      last_agent_action := none }, 200, newId)

/-- The session-end endpoint: 404 when the session id is absent from the
body or unknown; otherwise deletes the session record. -/
def end_session (ss : Sessions) (session_id? : Option String) : Sessions × Nat :=
  match session_id? with
  | none => (ss, 404)
  | some sid =>
    match lookupKey ss sid with
    | none => (ss, 404)
    | some _ => (eraseKey ss sid, 200)

/-- The body fields of an event ingestion request that the handler reads:
the event name and the page property. -/
structure EventData where
  event : Option String
  page : Option String
deriving DecidableEq

/-- The event ingestion endpoint: when the session id header names a live
session, its event counter is bumped, its last-activity timestamp is
refreshed and on a page-view event with a truthy page that page is
appended; in every case the response is 200 success. -/
def events (ss : Sessions) (session_id? : Option String) (d : EventData)
    (now : Nat) : Sessions × Nat :=
  match session_id? with
  | none => (ss, 200)
  | some sid =>
    match lookupKey ss sid with
    | none => (ss, 200)
    | some sess =>
      let sess := { sess with events_count := sess.events_count + 1,
                              last_activity := now }
      let sess :=
        if d.event = some "page_view" then
          match d.page with
          | some p =>
            if p = "" then sess
            else { sess with pages_viewed := sess.pages_viewed ++ [p] }
          | none => sess
        else sess
      (setKey ss sid sess, 200)

/-- The agent-action webhook: 400 when the session id is absent, falsy or
unknown; otherwise stores a fresh pending action under the fresh action id,
refreshes the last-agent-action timestamp and returns the action id. -/
def agent_action_webhook (ss : Sessions) (session_id? : Option String)
    (actionType : Option String) (payload : List (String × String))
    (newId : String) (now : Nat) : Sessions × CreateResult :=
  match session_id? with
  | none => (ss, CreateResult.invalidSession)
  | some sid =>
    if sid = "" then (ss, CreateResult.invalidSession)
    else
      match lookupKey ss sid with
      | none => (ss, CreateResult.invalidSession)
      | some sess =>
        let act : Action :=
          { action_id := newId, type := actionType, payload := payload,
            status := "pending", created_at := now, executed_at := none }
        let sess := { sess with actions := setKey sess.actions newId act,
                                last_agent_action := some now }
        (setKey ss sid sess, CreateResult.received newId)

/-- Resolution of the session id of the pending-actions endpoint: the
header value when truthy, otherwise the query parameter. -/
def resolveSid (header? query? : Option String) : Option String :=
  match header? with
  | some h => if h = "" then query? else some h
  | none => query?

/-- The pending-actions endpoint: 200 with an empty list when the resolved
session id is absent, falsy or unknown; otherwise 200 with those stored
actions whose status equals pending. -/
def get_pending_actions (ss : Sessions) (header? query? : Option String) :
    Nat × List Action :=
  match resolveSid header? query? with
  | none => (200, [])
  | some sid =>
    if sid = "" then (200, [])
    else
      match lookupKey ss sid with
      | none => (200, [])
      | some sess =>
        (200, (sess.actions.map Prod.snd).filter
          (fun a => decide (a.status = "pending")))

/-- The action-ack endpoint: the status defaults to executed; an unknown
session yields the invalid-session error, an unknown action the
unknown-action error; otherwise the stored status and executed-at timestamp
of the action are overwritten with the given status and the current time. -/
def action_ack (ss : Sessions) (session_id? action_id? : Option String)
    (status? : Option String) (now : Nat) : Sessions × AckResult :=
  let status := status?.getD "executed"
  match session_id? with
  | none => (ss, AckResult.invalidSession)
  | some sid =>
    match lookupKey ss sid with
    | none => (ss, AckResult.invalidSession)
    | some sess =>
      match action_id? with
      | none => (ss, AckResult.unknownAction)
      | some aid =>
        match lookupKey sess.actions aid with
        | none => (ss, AckResult.unknownAction)
        | some act =>
          let act := { act with status := status, executed_at := some now }
          (setKey ss sid { sess with actions := setKey sess.actions aid act },
           AckResult.ok)

/-- The executed-at timestamp of a stored action, reached through its
session. -/
def getExecutedAt (ss : Sessions) (sid aid : String) : Option Nat :=
  match lookupKey ss sid with
  | none => none
  | some sess =>
    match lookupKey sess.actions aid with
    | none => none
    | some act => act.executed_at

/-- The status of a stored action, reached through its session. -/
def getStatus (ss : Sessions) (sid aid : String) : Option String :=
  match lookupKey ss sid with
  | none => none
  | some sess =>
    match lookupKey sess.actions aid with
    | none => none
    | some act => some act.status

end Web

/-! Concrete sample data used to instantiate hypotheses of the theorems
below on explicit inputs. -/

/-- A sample pending action. -/
def sampleAction : Web.Action :=
  { action_id := "a", type := some "click_button",
    payload := [("button_text", "Send Test Event")], status := "pending",
    created_at := 0, executed_at := none }

/-- A sample session holding the sample pending action. -/
def sampleSession : Web.Session :=
  { session_id := "s", started_at := 0, last_activity := 0, events_count := 0,
    pages_viewed := [], actions := [("a", sampleAction)],
    last_agent_action := some 0 }

/-- A sample session store holding the sample session. -/
def sampleSessions : Web.Sessions := [("s", sampleSession)]

/-- A sample model response carrying one recognized tool invocation. -/
def sampleResponse : Agent.ModelResponse :=
  { tool_calls := [{ name := "click_button",
                     args := [("button_text", "Send Test Event")] }] }

/-- A sample conversations store with one stored message. -/
def sampleConvs : Agent.Conversations := [("s", [Agent.Msg.human "a"])]

/-! Helper lemmas about the association-list operations. -/

/-- Looking up a key right after setting it yields the set value. -/
theorem lookupKey_setKey_self {α : Type} (m : List (String × α)) (k : String)
    (v : α) : lookupKey (setKey m k v) k = some v := by
  induction m with
  | nil => simp [setKey, lookupKey]
  | cons p rest ih =>
    obtain ⟨k1, v1⟩ := p
    by_cases h : k1 = k
    · simp [setKey, lookupKey, h]
    · simp [setKey, lookupKey, h, ih]

/-- Looking up a key right after erasing it yields nothing. -/
theorem lookupKey_eraseKey_self {α : Type} (m : List (String × α)) (k : String) :
    lookupKey (eraseKey m k) k = none := by
  induction m with
  | nil => simp [eraseKey, lookupKey]
  | cons p rest ih =>
    obtain ⟨k1, v1⟩ := p
    by_cases h : k1 = k
    · simp [eraseKey, lookupKey, h, ih]
    · simp [eraseKey, lookupKey, h, ih]

/-! Helper lemmas about frame sequences. -/

namespace Agent

/-- The terminal frame after the history update is terminal, whichever
tracing outcome occurred. -/
theorem isTerminal_finalEvent (sid : String) (lfE : Bool) (lfErr : Option String) :
    isTerminal (finalEvent sid lfE lfErr) = true := by
  cases lfE <;> cases lfErr <;> rfl

/-- A frame of a mapped chunk list is not terminal. -/
theorem not_terminal_of_mem_chunks {e : StreamEvent} {l : List String}
    (h : e ∈ l.map StreamEvent.chunk) : isTerminal e = false := by
  obtain ⟨t, _, rfl⟩ := List.mem_map.mp h
  rfl

/-- A frame of a mapped action-event list is not terminal. -/
theorem not_terminal_of_mem_actions {e : StreamEvent} {l : List String}
    {t : String} (h : e ∈ l.map (StreamEvent.action t)) : isTerminal e = false := by
  obtain ⟨b, _, rfl⟩ := List.mem_map.mp h
  rfl

/-- A confirmation frame is not terminal. -/
theorem not_terminal_of_mem_conf {e : StreamEvent} {made : List String}
    (h : e ∈ confirmationEvents made) : isTerminal e = false := by
  cases made with
  | nil => simp [confirmationEvents] at h
  | cons b rest =>
    simp [confirmationEvents] at h
    subst h
    rfl

/-- A mapped chunk list holds no action-event frame. -/
theorem countActions_map_chunk (l : List String) :
    countActions (l.map StreamEvent.chunk) = 0 := by
  induction l with
  | nil => rfl
  | cons a rest _ih =>
    simp [countActions, List.countP_cons, isAction]

/-- A mapped action-event list holds no text-chunk frame. -/
theorem countChunks_map_action (l : List String) (t : String) :
    countChunks (l.map (StreamEvent.action t)) = 0 := by
  induction l with
  | nil => rfl
  | cons a rest _ih =>
    simp [countChunks, List.countP_cons, isChunk]

/-- The confirmation frames hold at most one text chunk. -/
theorem countChunks_confirmationEvents (made : List String) :
    countChunks (confirmationEvents made) ≤ 1 := by
  cases made <;> simp [confirmationEvents, countChunks, List.countP_cons, isChunk]

/-- The terminal frame is not a text chunk. -/
theorem countChunks_finalEvent (sid : String) (lfE : Bool) (lfErr : Option String) :
    countChunks [finalEvent sid lfE lfErr] = 0 := by
  cases lfE <;> cases lfErr <;> rfl

/-- The terminal frame is not an action event. -/
theorem countActions_finalEvent (sid : String) (lfE : Bool) (lfErr : Option String) :
    countActions [finalEvent sid lfE lfErr] = 0 := by
  cases lfE <;> cases lfErr <;> rfl

/-- Action-event counting distributes over concatenation. -/
theorem countActions_append (l1 l2 : List StreamEvent) :
    countActions (l1 ++ l2) = countActions l1 + countActions l2 := by
  simp [countActions, List.countP_append]

/-- Text-chunk counting distributes over concatenation. -/
theorem countChunks_append (l1 l2 : List StreamEvent) :
    countChunks (l1 ++ l2) = countChunks l1 + countChunks l2 := by
  simp [countChunks, List.countP_append]

/-- A lone error frame holds no action event. -/
theorem countActions_error (e : String) :
    countActions [StreamEvent.error e] = 0 := rfl

end Agent

/-! Claim theorems. -/

/-- Claim C6: for every session store state and every session id, the
pending-actions endpoint returns only actions whose status equals pending;
no action with any other status ever appears in the returned list. -/
theorem C6_list_pending_only_pending (ss : Web.Sessions)
    (header? query? : Option String) (a : Web.Action)
    (ha : a ∈ (Web.get_pending_actions ss header? query?).2) :
    a.status = "pending" := by
  unfold Web.get_pending_actions at ha
  split at ha
  · simp at ha
  · split at ha
    · simp at ha
    · split at ha
      · simp at ha
      · exact of_decide_eq_true (List.mem_filter.mp ha).2

/-- Witness for claim C6 on a concrete store holding one pending action. -/
theorem C6_witness : sampleAction.status = "pending" :=
  C6_list_pending_only_pending sampleSessions (some "s") none sampleAction
    (by decide)

/-- Claim C7: ending an existing session removes the session together with
all its actions, and every subsequent acknowledgment for that session id
fails with the invalid-session error instead of succeeding. -/
theorem C7_end_session_removes (ss : Web.Sessions) (sid : String)
    (sess : Web.Session) (hs : lookupKey ss sid = some sess) :
    (Web.end_session ss (some sid)).2 = 200
  ∧ lookupKey (Web.end_session ss (some sid)).1 sid = none
  ∧ ∀ (aid? st? : Option String) (t : Nat),
      Web.action_ack (Web.end_session ss (some sid)).1 (some sid) aid? st? t
        = ((Web.end_session ss (some sid)).1, Web.AckResult.invalidSession) := by
  refine ⟨?_, ?_, ?_⟩
  · simp [Web.end_session, hs]
  · simp [Web.end_session, hs, lookupKey_eraseKey_self]
  · intro aid? st? t
    simp [Web.end_session, hs, Web.action_ack, lookupKey_eraseKey_self]

/-- Witness for claim C7 on a concrete store. -/
theorem C7_witness :
    (Web.end_session sampleSessions (some "s")).2 = 200
  ∧ lookupKey (Web.end_session sampleSessions (some "s")).1 "s" = none
  ∧ Web.action_ack (Web.end_session sampleSessions (some "s")).1 (some "s")
      (some "a") (some "executed") 3
      = ((Web.end_session sampleSessions (some "s")).1,
         Web.AckResult.invalidSession) := by
  have h := C7_end_session_removes sampleSessions "s" sampleSession rfl
  exact ⟨h.1, h.2.1, h.2.2 (some "a") (some "executed") 3⟩

/-- Claim C1: within one chat-stream turn whose model call returned, the
outcome is mutually exclusive: a response without tool invocations yields
no action event at all and only text chunks besides terminal frames, while
a response with tool invocations yields exactly one action event per
recognized invocation followed by the confirmation frames (at most one text
chunk, summarizing the first recognized button text) and the terminal
frame, never a stream of model text. -/
theorem C1_mode_exclusive (message session_id : String) (history : List Agent.Msg)
    (resp : Agent.ModelResponse) (sc : List Agent.ChunkContent)
    (se : Option String) (lfE : Bool) (lfErr : Option String) :
    (resp.tool_calls = [] →
       Agent.countActions
         (Agent.generate message session_id history (Except.ok resp) sc se lfE
           lfErr).1 = 0
     ∧ ∀ e ∈ (Agent.generate message session_id history (Except.ok resp) sc se
           lfE lfErr).1,
         Agent.isChunk e = true ∨ Agent.isTerminal e = true)
  ∧ (resp.tool_calls ≠ [] →
       (Agent.generate message session_id history (Except.ok resp) sc se lfE
           lfErr).1
         = (Agent.recognizedButtons resp.tool_calls).map
             (Agent.StreamEvent.action "click_button")
           ++ Agent.confirmationEvents (Agent.recognizedButtons resp.tool_calls)
           ++ [Agent.finalEvent session_id lfE lfErr]
     ∧ Agent.countChunks
         (Agent.generate message session_id history (Except.ok resp) sc se lfE
           lfErr).1 ≤ 1) := by
  obtain ⟨tcs⟩ := resp
  constructor
  · intro h
    have h2 : tcs = [] := h
    subst h2
    cases se with
    | some e =>
      constructor
      · simp [Agent.generate, Agent.countActions_append,
          Agent.countActions_map_chunk, Agent.countActions_error]
      · intro x hx
        simp only [Agent.generate] at hx
        rcases List.mem_append.mp hx with hm | hm
        · exact Or.inl (by
            obtain ⟨t, _, rfl⟩ := List.mem_map.mp hm
            rfl)
        · right
          simp at hm
          subst hm
          rfl
    | none =>
      constructor
      · simp [Agent.generate, Agent.countActions_append,
          Agent.countActions_map_chunk, Agent.countActions_finalEvent]
      · intro x hx
        simp only [Agent.generate] at hx
        rcases List.mem_append.mp hx with hm | hm
        · exact Or.inl (by
            obtain ⟨t, _, rfl⟩ := List.mem_map.mp hm
            rfl)
        · right
          simp at hm
          subst hm
          exact Agent.isTerminal_finalEvent session_id lfE lfErr
  · intro h
    cases tcs with
    | nil => exact absurd rfl h
    | cons tc rest =>
      constructor
      · simp [Agent.generate, List.append_assoc]
      · have hb :=
          Agent.countChunks_confirmationEvents (Agent.recognizedButtons (tc :: rest))
        simp only [Agent.generate, Agent.countChunks_append,
          Agent.countChunks_map_action, Agent.countChunks_finalEvent]
        omega

/-- Witness for claim C1 on a turn whose model response carries one
recognized tool invocation. -/
theorem C1_witness :
    (Agent.generate "m" "s" [] (Except.ok sampleResponse) [] none false none).1
      = (Agent.recognizedButtons sampleResponse.tool_calls).map
          (Agent.StreamEvent.action "click_button")
        ++ Agent.confirmationEvents (Agent.recognizedButtons sampleResponse.tool_calls)
        ++ [Agent.finalEvent "s" false none]
  ∧ Agent.countChunks
      (Agent.generate "m" "s" [] (Except.ok sampleResponse) [] none false none).1
      ≤ 1 :=
  (C1_mode_exclusive "m" "s" [] sampleResponse [] none false none).2 (by decide)

/-- Claim C2: every execution of the chat-stream generator, whatever the
outcomes of the model call, the streaming call and the tracing calls, emits
a frame sequence that ends in exactly one terminal frame (done or error):
the last frame is terminal and no earlier frame is. -/
theorem C2_exactly_one_terminal (message session_id : String)
    (history : List Agent.Msg) (mr : Except String Agent.ModelResponse)
    (sc : List Agent.ChunkContent) (se : Option String) (lfE : Bool)
    (lfErr : Option String) :
    ∃ pre last,
      (Agent.generate message session_id history mr sc se lfE lfErr).1
        = pre ++ [last]
    ∧ Agent.isTerminal last = true
    ∧ ∀ e ∈ pre, Agent.isTerminal e = false := by
  cases mr with
  | error e => exact ⟨[], Agent.StreamEvent.error e, rfl, rfl, by simp⟩
  | ok resp =>
    obtain ⟨tcs⟩ := resp
    cases tcs with
    | nil =>
      cases se with
      | some e =>
        refine ⟨(sc.filterMap Agent.chunkText).map Agent.StreamEvent.chunk,
          Agent.StreamEvent.error e, rfl, rfl, ?_⟩
        intro x hx
        exact Agent.not_terminal_of_mem_chunks hx
      | none =>
        refine ⟨(sc.filterMap Agent.chunkText).map Agent.StreamEvent.chunk,
          Agent.finalEvent session_id lfE lfErr, rfl,
          Agent.isTerminal_finalEvent session_id lfE lfErr, ?_⟩
        intro x hx
        exact Agent.not_terminal_of_mem_chunks hx
    | cons tc rest =>
      refine ⟨(Agent.recognizedButtons (tc :: rest)).map
            (Agent.StreamEvent.action "click_button")
          ++ Agent.confirmationEvents (Agent.recognizedButtons (tc :: rest)),
        Agent.finalEvent session_id lfE lfErr, rfl,
        Agent.isTerminal_finalEvent session_id lfE lfErr, ?_⟩
      intro x hx
      rcases List.mem_append.mp hx with hm | hm
      · exact Agent.not_terminal_of_mem_actions hm
      · exact Agent.not_terminal_of_mem_conf hm

/-- Claim C3 counterexample: the claim states that a turn in which an
exception is raised at any point ends with a terminal error frame and
leaves the stored history unchanged; on the concrete turn below the
tracing calls raise after the history update, so the turn does end with an
error frame, yet the stored history of the session grew from empty to the
appended user and assistant pair. -/
theorem C3_counterexample :
    (Agent.chat_stream [] (some "s") "hi" (Except.ok { tool_calls := [] })
        [Agent.ChunkContent.str "ok"] none true (some "boom")).1
      = [Agent.StreamEvent.chunk "ok", Agent.StreamEvent.error "boom"]
  ∧ (lookupKey (Agent.chat_stream [] (some "s") "hi"
        (Except.ok { tool_calls := [] }) [Agent.ChunkContent.str "ok"] none true
        (some "boom")).2 "s").getD []
      = [Agent.Msg.human "hi", Agent.Msg.ai "ok"]
  ∧ (lookupKey ([] : Agent.Conversations) "s").getD [] = []
  ∧ [Agent.Msg.human "hi", Agent.Msg.ai "ok"] ≠ ([] : List Agent.Msg) :=
  ⟨rfl, rfl, rfl, by decide⟩

/-- Claim C3 as amended: a turn in which an exception is raised before the
history update, that is by the model call or by the streaming call, emits a
terminal error frame and leaves the stored conversation history of the
session unchanged; an exception raised by the tracing calls after the
update still emits the terminal error frame, but the appended pair remains
stored. -/
theorem C3_amended_no_append_on_early_failure (convs : Agent.Conversations)
    (session_id? : Option String) (message : String)
    (mr : Except String Agent.ModelResponse) (sc : List Agent.ChunkContent)
    (se : Option String) (lfE : Bool) (lfErr : Option String)
    (h : (∃ e, mr = Except.error e)
       ∨ (∃ resp, mr = Except.ok resp ∧ resp.tool_calls = []
            ∧ ∃ e, se = some e)) :
    (∃ pre e,
      (Agent.chat_stream convs session_id? message mr sc se lfE lfErr).1
        = pre ++ [Agent.StreamEvent.error e])
  ∧ (lookupKey
        (Agent.chat_stream convs session_id? message mr sc se lfE lfErr).2
        (session_id?.getD "default")).getD []
      = (lookupKey convs (session_id?.getD "default")).getD [] := by
  obtain ⟨e, rfl⟩ | ⟨resp, rfl, htc, e, rfl⟩ := h
  · constructor
    · exact ⟨[], e, by simp [Agent.chat_stream, Agent.generate]⟩
    · simp [Agent.chat_stream, Agent.generate, lookupKey_setKey_self]
  · obtain ⟨tcs⟩ := resp
    have h2 : tcs = [] := htc
    subst h2
    constructor
    · exact ⟨(sc.filterMap Agent.chunkText).map Agent.StreamEvent.chunk, e,
        by simp [Agent.chat_stream, Agent.generate]⟩
    · simp [Agent.chat_stream, Agent.generate, lookupKey_setKey_self]

/-- Witness for the amended claim C3 on a turn whose model call raises. -/
theorem C3_amended_witness :
    (∃ pre e,
      (Agent.chat_stream sampleConvs (some "s") "hi" (Except.error "down") []
          none false none).1 = pre ++ [Agent.StreamEvent.error e])
  ∧ (lookupKey (Agent.chat_stream sampleConvs (some "s") "hi"
        (Except.error "down") [] none false none).2 "s").getD []
      = (lookupKey sampleConvs "s").getD [] :=
  C3_amended_no_append_on_early_failure sampleConvs (some "s") "hi"
    (Except.error "down") [] none false none (Or.inl ⟨"down", rfl⟩)

/-- Claim C4 counterexample: the claim states that once an action has been
acknowledged, a subsequent acknowledgment leaves its executed-at timestamp
unchanged; on the concrete store below a first acknowledgment at time 5
stores executed-at 5, and a second acknowledgment at time 9 overwrites it
to 9. -/
theorem C4_counterexample :
    Web.getExecutedAt
      (Web.action_ack sampleSessions (some "s") (some "a") (some "executed") 5).1
      "s" "a" = some 5
  ∧ Web.getExecutedAt
      (Web.action_ack
        (Web.action_ack sampleSessions (some "s") (some "a") (some "executed") 5).1
        (some "s") (some "a") (some "executed") 9).1
      "s" "a" = some 9
  ∧ (some 9 : Option Nat) ≠ some 5 :=
  ⟨rfl, rfl, by decide⟩

/-- Claim C4 as amended: the executed-at timestamp is set on every
successful acknowledgment to the time of that acknowledgment, so a repeat
acknowledgment overwrites it (last write wins) rather than leaving it
unchanged; in particular it is always populated after a successful
acknowledgment. -/
theorem C4_amended_executedAt_overwritten (ss : Web.Sessions) (sid aid : String)
    (st? : Option String) (t : Nat) (sess : Web.Session) (act : Web.Action)
    (hs : lookupKey ss sid = some sess)
    (ha : lookupKey sess.actions aid = some act) :
    (Web.action_ack ss (some sid) (some aid) st? t).2 = Web.AckResult.ok
  ∧ Web.getExecutedAt (Web.action_ack ss (some sid) (some aid) st? t).1 sid aid
      = some t := by
  constructor
  · simp [Web.action_ack, hs, ha]
  · simp [Web.action_ack, hs, ha, Web.getExecutedAt, lookupKey_setKey_self]

/-- Witness for the amended claim C4 on a concrete store. -/
theorem C4_amended_witness :
    (Web.action_ack sampleSessions (some "s") (some "a") (some "executed") 5).2
      = Web.AckResult.ok
  ∧ Web.getExecutedAt
      (Web.action_ack sampleSessions (some "s") (some "a") (some "executed") 5).1
      "s" "a" = some 5 :=
  C4_amended_executedAt_overwritten sampleSessions "s" "a" (some "executed") 5
    sampleSession sampleAction rfl rfl

/-- Claim C5: for an existing action in an existing session, a second
acknowledgment carrying a different status than the first overwrites the
previously stored status; after the two calls the stored status equals the
second one. -/
theorem C5_ack_last_write_wins (ss : Web.Sessions) (sid aid st1 st2 : String)
    (t1 t2 : Nat) (sess : Web.Session) (act : Web.Action)
    (hs : lookupKey ss sid = some sess)
    (ha : lookupKey sess.actions aid = some act) (_hne : st1 ≠ st2) :
    Web.getStatus
      (Web.action_ack (Web.action_ack ss (some sid) (some aid) (some st1) t1).1
        (some sid) (some aid) (some st2) t2).1 sid aid = some st2 := by
  simp [Web.action_ack, hs, ha, Web.getStatus, lookupKey_setKey_self]

/-- Witness for claim C5 on a concrete store: acknowledging first as
executed and then as failed leaves the stored status failed. -/
theorem C5_witness :
    Web.getStatus
      (Web.action_ack
        (Web.action_ack sampleSessions (some "s") (some "a") (some "executed") 5).1
        (some "s") (some "a") (some "failed") 9).1 "s" "a" = some "failed" :=
  C5_ack_last_write_wins sampleSessions "s" "a" "executed" "failed" 5 9
    sampleSession sampleAction rfl rfl (by decide)

/-- Claim C8 counterexample: the claim states that the pending-actions
listing rejects an unknown session with a 4xx status; on the empty store
the listing for an unknown session id answers 200, which is not a 4xx
status. -/
theorem C8_counterexample :
    (Web.get_pending_actions [] (some "nope") none).1 = 200
  ∧ ¬ (400 ≤ (Web.get_pending_actions [] (some "nope") none).1
        ∧ (Web.get_pending_actions [] (some "nope") none).1 < 500) := by
  constructor
  · rfl
  · decide

/-- Claim C8 as amended: action creation and acknowledgment reject an
unknown session with HTTP 400 and an unknown action with HTTP 404 (client
errors), while the pending-actions listing does not reject an unknown
session; it answers 200 with an empty list. -/
theorem C8_amended_client_errors (ss : Web.Sessions) (sid : String)
    (a? : Option String) (p : List (String × String)) (nid : String) (now : Nat)
    (aid : String) (st? : Option String) (t : Nat) :
    (lookupKey ss sid = none →
       (Web.agent_action_webhook ss (some sid) a? p nid now).2.httpStatus = 400
     ∧ (Web.action_ack ss (some sid) (some aid) st? t).2.httpStatus = 400
     ∧ Web.get_pending_actions ss (some sid) none = (200, []))
  ∧ (∀ sess : Web.Session, lookupKey ss sid = some sess →
       lookupKey sess.actions aid = none →
       (Web.action_ack ss (some sid) (some aid) st? t).2.httpStatus = 404) := by
  constructor
  · intro h
    refine ⟨?_, ?_, ?_⟩
    · by_cases he : sid = "" <;>
        simp [Web.agent_action_webhook, h, he, Web.CreateResult.httpStatus]
    · simp [Web.action_ack, h, Web.AckResult.httpStatus]
    · by_cases he : sid = "" <;>
        simp [Web.get_pending_actions, Web.resolveSid, h, he]
  · intro sess hs ha
    simp [Web.action_ack, hs, ha, Web.AckResult.httpStatus]

/-- Witness for the amended claim C8 on the empty store and an unknown
session id. -/
theorem C8_amended_witness :
    (Web.agent_action_webhook [] (some "x") none [] "n" 0).2.httpStatus = 400
  ∧ (Web.action_ack [] (some "x") (some "a") none 0).2.httpStatus = 400
  ∧ Web.get_pending_actions [] (some "x") none = (200, []) :=
  (C8_amended_client_errors [] "x" none [] "n" 0 "a" none 0).1 rfl

/-- Claim C9: an event ingestion request whose session id header does not
name an existing session is a no-op that still reports success; the session
store is left entirely unchanged and the response is the 200 success. -/
theorem C9_events_noop (ss : Web.Sessions) (session_id? : Option String)
    (d : Web.EventData) (now : Nat)
    (h : session_id?.bind (lookupKey ss) = none) :
    Web.events ss session_id? d now = (ss, 200) := by
  cases session_id? with
  | none => rfl
  | some sid =>
    have h2 : lookupKey ss sid = none := h
    simp [Web.events, h2]

/-- Witness for claim C9 on a concrete request naming a missing session. -/
theorem C9_witness :
    Web.events [] (some "ghost") { event := some "page_view", page := some "home" } 7
      = ([], 200) :=
  C9_events_noop [] (some "ghost") { event := some "page_view", page := some "home" }
    7 rfl

/-- Claim C10: each of the chat, chat-stream and chat-reset endpoints, when
the request body omits the session id, silently substitutes the fixed id
default instead of rejecting the request, so those requests read, append to
or clear the one conversation history keyed default. -/
theorem C10_default_session (convs : Agent.Conversations) (message : String)
    (mr1 : Except String String) (mr2 : Except String Agent.ModelResponse)
    (sc : List Agent.ChunkContent) (se : Option String) (lfE : Bool)
    (lfErr : Option String) :
    Agent.chat convs none message mr1 lfE lfErr
      = Agent.chat convs (some "default") message mr1 lfE lfErr
  ∧ Agent.chat_stream convs none message mr2 sc se lfE lfErr
      = Agent.chat_stream convs (some "default") message mr2 sc se lfE lfErr
  ∧ Agent.reset_chat convs none = Agent.reset_chat convs (some "default")
  ∧ (Agent.reset_chat convs none).1 = eraseKey convs "default"
  ∧ (Agent.reset_chat convs none).2 = 200 :=
  ⟨rfl, rfl, rfl, rfl, rfl⟩

end RTA
